import Mathlib

/-!
Shallow embedding of the two PID force-feedback example programs
(`PID effects example/main.c` and the unnamed sibling file) together with
the report layouts their HID report descriptor declares.

Both programs build every outgoing report the same way: `memset` the whole
buffer to zero, assign the individual bytes, then hand the first `len`
bytes to `hid_write` / `hid_send_feature_report`.  A buffer is modelled as
a function `Nat → Nat` (byte index to byte value), an assignment as a
pointwise update, and the transmitted report as the list of the first
`len` bytes.
-/

namespace PID

/-- Report id `0x13` from `enum REPORT_ID` in the source. -/
def PID_POOL_REPORT_ID : Nat := 0x13

/-- Report id `0x0c` from `enum REPORT_ID` in the source. -/
def PID_DEVICE_CONTROL_REPORT_ID : Nat := 0x0c

/-- Report id `0x0d` from `enum REPORT_ID` in the source. -/
def DEVICE_GAIN_REPORT_ID : Nat := 0x0d

/-- Report id `0x11` from `enum REPORT_ID` in the source. -/
def CREATE_NEW_EFFECT_REPORT_ID : Nat := 0x11

/-- Report id `0x12` from `enum REPORT_ID` in the source. -/
def PID_BLOCK_LOAD_REPORT_ID : Nat := 0x12

/-- Report id `0x05` from `enum REPORT_ID` in the source. -/
def SET_CONSTANT_FORCE_REPORT_ID : Nat := 0x05

/-- Report id `0x02` from `enum REPORT_ID` in the source. -/
def SET_ENVELOPE_REPORT_ID : Nat := 0x02

/-- Report id `0x01` from `enum REPORT_ID` in the source. -/
def SET_EFFECT_REPORT_ID : Nat := 0x01

/-- Report id `0x0a` from `enum REPORT_ID` in the source. -/
def EFFECT_OPERATION_REPORT_ID : Nat := 0x0a

/-- The buffer right after `memset(buf, 0x00, sizeof(buf))`: every byte is zero. -/
def memsetZero : Nat → Nat := fun _ => 0

/-- One assignment `buf[i] = v`. -/
def writeByte (buf : Nat → Nat) (i v : Nat) : Nat → Nat :=
  fun j => if j = i then v else buf j

/-- A sequence of byte assignments applied to the freshly zeroed buffer. -/
def applyWrites (ws : List (Nat × Nat)) : Nat → Nat :=
  ws.foldl (fun b iv => writeByte b iv.1 iv.2) memsetZero

/-- The first `len` bytes of the assembled buffer: exactly the bytes handed to
`hid_write` or `hid_send_feature_report` with length argument `len`. -/
def transmit (ws : List (Nat × Nat)) (len : Nat) : List Nat :=
  (List.range len).map (applyWrites ws)

/-- PID_DEVICE_CONTROL_REPORT with the Device Reset bit (`buf[1] = 0b00001000`),
written with length 3. -/
def deviceControlResetReport : List Nat :=
  transmit [(0, PID_DEVICE_CONTROL_REPORT_ID), (1, 0b00001000)] 3

/-- PID_DEVICE_CONTROL_REPORT with the Stop All Effects bit (`buf[1] = 0b00000100`),
written with length 3; this closes `PID effects example/main.c`. -/
def deviceControlStopAllReport : List Nat :=
  transmit [(0, PID_DEVICE_CONTROL_REPORT_ID), (1, 0b00000100)] 3

/-- DEVICE_GAIN_REPORT with `buf[1] = 0xff`, written with length 3. -/
def deviceGainReport : List Nat :=
  transmit [(0, DEVICE_GAIN_REPORT_ID), (1, 0xff)] 3

/-- CREATE_NEW_EFFECT_REPORT asking for an ET Constant Force effect
(`buf[1] = 0x01`), sent as a feature report with length 4. -/
def createNewEffectReport : List Nat :=
  transmit [(0, CREATE_NEW_EFFECT_REPORT_ID), (1, 0x01)] 4

/-- SET_CONSTANT_FORCE_REPORT: `buf[1] = index`, `buf[2]` and `buf[3]` the two
magnitude bytes, written with length 5. -/
def setConstantForceReport (index lo hi : Nat) : List Nat :=
  transmit [(0, SET_CONSTANT_FORCE_REPORT_ID), (1, index), (2, lo), (3, hi)] 5

/-- SET_ENVELOPE_REPORT with all-zero envelope parameters, written with length 15. -/
def setEnvelopeReport (index : Nat) : List Nat :=
  transmit [(0, SET_ENVELOPE_REPORT_ID), (1, index), (2, 0), (3, 0), (4, 0),
    (5, 0), (6, 0), (7, 0), (8, 0), (9, 0), (10, 0), (11, 0), (12, 0), (13, 0)] 15

/-- SET_EFFECT_REPORT exactly as both programs assemble it: effect type 1,
duration `0xffff`, gain `0xff`, trigger button `0xff`, flags byte `0b00000100`
(direction enable set, the two axis-enable bits clear, 5 pad bits), direction X
bytes `0x28`/`0x23`, everything else left at its `memset` value; length 23. -/
def setEffectReport (index : Nat) : List Nat :=
  transmit [(0, SET_EFFECT_REPORT_ID), (1, index), (2, 0x01), (3, 0xff), (4, 0xff),
    (5, 0), (6, 0), (7, 0), (8, 0), (9, 0), (10, 0), (11, 0xff), (12, 0xff),
    (13, 0b00000100), (14, 0x28), (15, 0x23), (16, 0), (17, 0), (18, 0), (19, 0),
    (20, 0), (21, 0)] 23

/-- EFFECT_OPERATION_REPORT with the Op Effect Start selector (`buf[2] = 0b00000001`),
written with length 4; `buf[3]`, the loop count, keeps its `memset` value. -/
def effectOperationReport (index : Nat) : List Nat :=
  transmit [(0, EFFECT_OPERATION_REPORT_ID), (1, index), (2, 0b00000001)] 4

theorem deviceControlResetReport_eq : deviceControlResetReport = [0x0c, 0x08, 0x00] := rfl

theorem deviceControlStopAllReport_eq : deviceControlStopAllReport = [0x0c, 0x04, 0x00] := rfl

theorem deviceGainReport_eq : deviceGainReport = [0x0d, 0xff, 0x00] := rfl

theorem createNewEffectReport_eq : createNewEffectReport = [0x11, 0x01, 0x00, 0x00] := rfl

theorem setConstantForceReport_eq (index lo hi : Nat) :
    setConstantForceReport index lo hi = [0x05, index, lo, hi, 0x00] := rfl

theorem setEnvelopeReport_eq (index : Nat) :
    setEnvelopeReport index = [0x02, index, 0, 0, 0, 0, 0, 0, 0, 0, 0, 0, 0, 0, 0] := rfl

theorem setEffectReport_eq (index : Nat) :
    setEffectReport index = [0x01, index, 0x01, 0xff, 0xff, 0, 0, 0, 0, 0, 0, 0xff,
      0xff, 0x04, 0x28, 0x23, 0, 0, 0, 0, 0, 0, 0] := rfl

theorem effectOperationReport_eq (index : Nat) :
    effectOperationReport index = [0x0a, index, 0x01, 0x00] := rfl

/-- Errors of the error taxonomy that the constant-force codec can raise. -/
inductive CodecError
| RangeError
deriving DecidableEq

/-- Little-endian two's-complement byte pair of a signed 16-bit value. -/
def i16LeBytes (m : Int) : List Nat :=
  let r := (m % 65536).toNat
  [r % 256, r / 256]

/-- Modelled from the spec: the source programs hard-code the magnitude bytes, so
the general `encode(SetConstantForce, h, m)` of the ReportCodec section is not in
`src/`.  It checks the declared logical bound [-32768, 32767] and on success packs
the layout the source exercises: byte 0 the report id `0x05`, byte 1 the handle,
bytes 2-3 the magnitude as little-endian signed 16 bits, byte 4 the zero pad the
source transmits (`hid_write` length 5 after `memset`).  On a range failure no
bytes are produced. -/
def encodeSetConstantForce (h : Nat) (m : Int) : Except CodecError (List Nat) :=
  if m < -32768 ∨ 32767 < m then Except.error CodecError.RangeError
  else Except.ok (SET_CONSTANT_FORCE_REPORT_ID :: h :: i16LeBytes m ++ [0])

/-- Magnitude field of a SET_CONSTANT_FORCE_REPORT: bytes 2-3 read back as a
little-endian signed 16-bit integer. -/
def decodeConstantForceMagnitude (bytes : List Nat) : Int :=
  let raw := bytes.getD 2 0 + 256 * bytes.getD 3 0
  if raw < 32768 then (raw : Int) else (raw : Int) - 65536

/-- The acceptance test `main.c` applies to the PID_BLOCK_LOAD_REPORT response:
`index = buf[1]; if (index == 0)` the allocation failed, otherwise `index` is the
effect handle used by every later report. -/
def blockLoadAccept (resp : List Nat) : Option Nat :=
  let index := resp.getD 1 0
  if index = 0 then none else some index

/-- Status byte of a BlockLoad response, offset 2 (1 = Success, 2 = Full, 3 = Error). -/
def blockLoadStatus (resp : List Nat) : Nat := resp.getD 2 0

/-- Linear logical-to-physical rescaling declared by a HID report descriptor entry. -/
def hidLinearScale (lmin lmax pmin pmax v : ℚ) : ℚ :=
  pmin + (v - lmin) * (pmax - pmin) / (lmax - lmin)

/-- The raw 16-bit Direction X value carried at bytes 14-15 of a
SET_EFFECT_REPORT (two 16-bit little-endian direction fields follow the flags
byte in the descriptor). -/
def directionRawOfSetEffect (bytes : List Nat) : Nat :=
  bytes.getD 14 0 + 256 * bytes.getD 15 0

/-- Direction decoded to degrees: the descriptor declares logical [0, 35999]
mapped onto physical [0, 35999] and the field carries centidegrees (0.01 degree
per unit, the scale the source comment at the SET_EFFECT_REPORT layout calls
"en centi-degrees"). -/
def directionDegrees (d : Nat) : ℚ :=
  hidLinearScale 0 35999 0 35999 (d : ℚ) / 100

/-- Device gain decoded to physical 0.01-percent units: the Device Gain Report
entry of the descriptor declares logical [0, 255] mapped onto physical [0, 10000]. -/
def deviceGainPhysical (g : Nat) : ℚ :=
  hidLinearScale 0 255 0 10000 (g : ℚ)

/-- C1: for every handle `h` and magnitude `m` in [-10000, 10000], encoding a
SetConstantForce report succeeds, its byte 0 is the report id `0x05` and byte 1
the handle, and decoding its little-endian signed 16-bit magnitude field yields
`m` again; the layout agrees with the bytes the source writes, `dc 05` for +1500
and `24 fa` for -1500. -/
theorem setConstantForce_roundtrip (h : Nat) (m : Int)
    (hlo : -10000 ≤ m) (hhi : m ≤ 10000) :
    (∃ bytes, encodeSetConstantForce h m = Except.ok bytes ∧
      bytes.getD 0 0 = 0x05 ∧ bytes.getD 1 0 = h ∧
      decodeConstantForceMagnitude bytes = m) ∧
    encodeSetConstantForce h 1500 = Except.ok [0x05, h, 0xdc, 0x05, 0x00] ∧
    encodeSetConstantForce h (-1500) = Except.ok [0x05, h, 0x24, 0xfa, 0x00] := by
  have hcond : ¬ (m < -32768 ∨ 32767 < m) := by omega
  refine ⟨⟨SET_CONSTANT_FORCE_REPORT_ID :: h :: i16LeBytes m ++ [0], ?_, by rfl, by rfl, ?_⟩,
    rfl, rfl⟩
  · simp [encodeSetConstantForce, hcond]
  · simp only [decodeConstantForceMagnitude, i16LeBytes, SET_CONSTANT_FORCE_REPORT_ID,
      List.cons_append, List.getD_cons_succ, List.getD_cons_zero]
    omega

/-- C1 witness: the round trip at handle 3 and magnitude 1500. -/
theorem setConstantForce_roundtrip_witness :
    ∃ bytes, encodeSetConstantForce 3 1500 = Except.ok bytes ∧
      bytes.getD 0 0 = 0x05 ∧ bytes.getD 1 0 = 3 ∧
      decodeConstantForceMagnitude bytes = 1500 :=
  (setConstantForce_roundtrip 3 1500 (by norm_num) (by norm_num)).1

/-- C3: encoding a SetConstantForce report with magnitude 40000 fails with
RangeError for every handle, and no report bytes are produced. -/
theorem encode_40000_rangeError (h : Nat) :
    encodeSetConstantForce h 40000 = Except.error CodecError.RangeError ∧
    ∀ bytes, encodeSetConstantForce h 40000 ≠ Except.ok bytes := by
  refine ⟨rfl, fun bytes hb => ?_⟩
  rw [show encodeSetConstantForce h 40000 = Except.error CodecError.RangeError from rfl] at hb
  exact Except.noConfusion hb

/-- C2 counterexample: a BlockLoad response whose status byte is Full (2) but
whose index byte is 3 is accepted by the code, which registers handle 3 even
though the status is not Success (1); the index byte is used, not treated as
zero. -/
theorem blockLoad_full_accepted :
    blockLoadAccept [0x12, 3, 2, 0xe8, 0x03] = some 3 ∧
    blockLoadStatus [0x12, 3, 2, 0xe8, 0x03] = 2 ∧ (2 : Nat) ≠ 1 := by
  refine ⟨rfl, rfl, by norm_num⟩

/-- C2 amended: the code registers a handle from a BlockLoad response exactly
when the index byte (offset 1) is nonzero, in which case the handle is that
byte; the status byte (offset 2) is never inspected, so overwriting it changes
nothing. -/
theorem blockLoadAccept_iff_index_nonzero (resp : List Nat) (h : Nat) :
    (blockLoadAccept resp = some h ↔ resp.getD 1 0 = h ∧ h ≠ 0) ∧
    (∀ s, blockLoadAccept (resp.set 2 s) = blockLoadAccept resp) := by
  constructor
  · have hdef : blockLoadAccept resp =
        if resp.getD 1 0 = 0 then none else some (resp.getD 1 0) := rfl
    rw [hdef]
    by_cases hz : resp.getD 1 0 = 0
    · rw [if_pos hz]
      simp only [reduceCtorEq, false_iff]
      omega
    · rw [if_neg hz]
      simp only [Option.some.injEq]
      constructor
      · rintro rfl
        exact ⟨rfl, hz⟩
      · rintro ⟨rfl, _⟩
        rfl
  · intro s
    rcases resp with _ | ⟨a, _ | ⟨b, t⟩⟩ <;> simp [blockLoadAccept]

/-- C6: the SET_EFFECT_REPORT direction bytes `0x28`, `0x23` carry the raw value
9000, which decodes to 90 degrees under the declared 0.01-degree-per-unit scale
(not the 900 degrees of the source comment), and in general a raw direction
value decodes to `d / 100` degrees. -/
theorem direction_9000_is_90_degrees :
    (∀ index : Nat, directionRawOfSetEffect (setEffectReport index) = 9000) ∧
    directionDegrees 9000 = 90 ∧ directionDegrees 9000 ≠ 900 ∧
    (∀ d : Nat, directionDegrees d = (d : ℚ) / 100) := by
  have hgen : ∀ d : Nat, directionDegrees d = (d : ℚ) / 100 := by
    intro d
    unfold directionDegrees hidLinearScale
    field_simp
  refine ⟨fun index => ?_, ?_, ?_, hgen⟩
  · simp [directionRawOfSetEffect, setEffectReport_eq]
  · rw [hgen]; norm_num
  · rw [hgen]; norm_num

/-- C7: the DEVICE_GAIN_REPORT carries the byte `0xff` (255) at offset 1, and
under the descriptor's declared linear scaling from logical [0, 255] to physical
[0, 10000] that byte maps exactly to 10000, i.e. 100 percent physical gain. -/
theorem deviceGain_ff_is_full_scale :
    deviceGainReport.getD 1 0 = 0xff ∧ deviceGainPhysical 0xff = 10000 := by
  constructor
  · simp [deviceGainReport_eq]
  · unfold deviceGainPhysical hidLinearScale
    norm_num

/-- One host-device transfer performed by the scripts: an interrupt-out write,
a feature-report get, or a feature-report send. -/
inductive Xfer
| write (bytes : List Nat)
| getFeature (reportId : Nat)
| sendFeature (bytes : List Nat)
deriving DecidableEq

/-- Tests whether a transfer is an interrupt-out write whose report id byte is `rid`. -/
def isWriteWithId (rid : Nat) : Xfer → Bool
| Xfer.write bytes => bytes.getD 0 256 == rid
| _ => false

/-- Tests whether a transfer is a feature-report get for report id `rid`. -/
def isGetFeature (rid : Nat) : Xfer → Bool
| Xfer.getFeature r => r == rid
| _ => false

/-- The 10-iteration shaping loop both programs run: each iteration writes the
SET_CONSTANT_FORCE_REPORT 100 times with magnitude bytes `dc 05` (+1500), then
100 times with magnitude bytes `24 fa` (-1500). -/
def shapingLoop (index : Nat) : List Xfer :=
  (List.replicate 10
    (List.replicate 100 (Xfer.write (setConstantForceReport index 0xdc 0x05)) ++
     List.replicate 100 (Xfer.write (setConstantForceReport index 0x24 0xfa)))).flatten

/-- The transfers the main of `PID effects example/main.c` performs after the
device is open, on the path where the BlockLoad response carried the nonzero
index: DeviceControl(Reset), DeviceGain, CreateNewEffect, BlockLoad query,
constant force (zero), envelope, effect, effect operation, the shaping loop,
and finally DeviceControl(StopAllEffects). -/
def mainTrace (index : Nat) : List Xfer :=
  [Xfer.write deviceControlResetReport,
   Xfer.write deviceGainReport,
   Xfer.sendFeature createNewEffectReport,
   Xfer.getFeature PID_BLOCK_LOAD_REPORT_ID,
   Xfer.write (setConstantForceReport index 0x00 0x00),
   Xfer.write (setEnvelopeReport index),
   Xfer.write (setEffectReport index),
   Xfer.write (effectOperationReport index)] ++
  shapingLoop index ++
  [Xfer.write deviceControlStopAllReport]

/-- The transfers the main of the unnamed source file performs after the device
is open: PIDPool query first, then DeviceControl(Reset), DeviceGain,
CreateNewEffect, BlockLoad query, constant force (bytes `cd 0c`), envelope,
effect, effect operation, the shaping loop, and 100 zero-magnitude constant
force writes before closing. -/
def part000Trace (index : Nat) : List Xfer :=
  [Xfer.getFeature PID_POOL_REPORT_ID,
   Xfer.write deviceControlResetReport,
   Xfer.write deviceGainReport,
   Xfer.sendFeature createNewEffectReport,
   Xfer.getFeature PID_BLOCK_LOAD_REPORT_ID,
   Xfer.write (setConstantForceReport index 0xcd 0x0c),
   Xfer.write (setEnvelopeReport index),
   Xfer.write (setEffectReport index),
   Xfer.write (effectOperationReport index)] ++
  shapingLoop index ++
  List.replicate 100 (Xfer.write (setConstantForceReport index 0x00 0x00))

theorem countP_replicate (n : Nat) (a : α) (p : α → Bool) :
    (List.replicate n a).countP p = if p a then n else 0 := by
  induction n with
  | zero => simp
  | succ n ih =>
    rw [List.replicate_succ, List.countP_cons, ih]
    split <;> simp_all

theorem countP_flatten_replicate (n : Nat) (l : List α) (p : α → Bool) :
    ((List.replicate n l).flatten).countP p = n * l.countP p := by
  induction n with
  | zero => simp
  | succ n ih =>
    rw [List.replicate_succ, List.flatten_cons, List.countP_append, ih]
    ring

theorem shapingLoop_countP (index rid : Nat) (hne : rid ≠ 0x05) :
    (shapingLoop index).countP (isWriteWithId rid) = 0 := by
  unfold shapingLoop
  rw [countP_flatten_replicate, List.countP_append, countP_replicate, countP_replicate]
  have h1 : isWriteWithId rid (Xfer.write (setConstantForceReport index 0xdc 0x05)) = false := by
    simp [isWriteWithId, setConstantForceReport_eq, Ne.symm hne]
  have h2 : isWriteWithId rid (Xfer.write (setConstantForceReport index 0x24 0xfa)) = false := by
    simp [isWriteWithId, setConstantForceReport_eq, Ne.symm hne]
  rw [h1, h2]
  simp

theorem shapingLoop_countP_getFeature (index rid : Nat) :
    (shapingLoop index).countP (isGetFeature rid) = 0 := by
  unfold shapingLoop
  rw [countP_flatten_replicate, List.countP_append, countP_replicate, countP_replicate]
  simp [isGetFeature]

theorem drop_append_cancel (l₁ l₂ : List α) (n : Nat) (h : l₁.length = n) :
    (l₁ ++ l₂).drop n = l₂ := by
  subst h
  simp

theorem shapingLoop_length (index : Nat) : (shapingLoop index).length = 2000 := by
  unfold shapingLoop
  rw [List.length_flatten, List.map_replicate, List.sum_replicate, List.length_append,
    List.length_replicate, List.length_replicate, smul_eq_mul]

/-- C4 counterexample: in the unnamed source file the PIDPool feature query is
the very first transfer (position 0), before the DeviceControl(Reset) write
(position 1), so initialization does not query PIDPool after the Reset and Gain
writes; shown at the concrete index 1. -/
theorem part000_pool_query_first :
    (part000Trace 1).findIdx (isGetFeature PID_POOL_REPORT_ID) = 0 ∧
    (part000Trace 1).findIdx (isWriteWithId PID_DEVICE_CONTROL_REPORT_ID) = 1 ∧
    ¬ ((part000Trace 1).findIdx (isWriteWithId PID_DEVICE_CONTROL_REPORT_ID) <
       (part000Trace 1).findIdx (isGetFeature PID_POOL_REPORT_ID)) := by
  refine ⟨by decide, by decide, by decide⟩

/-- C4 amended: the unnamed source file initializes by querying the PIDPool
feature report first, then sending DeviceControl(Reset), then DeviceGain(0xFF);
`PID effects example/main.c` sends DeviceControl(Reset) then DeviceGain(0xFF)
and never queries the PIDPool feature report at all. -/
theorem init_order_pool_first (index : Nat) :
    (part000Trace index).findIdx (isGetFeature PID_POOL_REPORT_ID) = 0 ∧
    (part000Trace index).findIdx (isWriteWithId PID_DEVICE_CONTROL_REPORT_ID) = 1 ∧
    (part000Trace index).findIdx (isWriteWithId DEVICE_GAIN_REPORT_ID) = 2 ∧
    (mainTrace index).findIdx (isWriteWithId PID_DEVICE_CONTROL_REPORT_ID) = 0 ∧
    (mainTrace index).findIdx (isWriteWithId DEVICE_GAIN_REPORT_ID) = 1 ∧
    (mainTrace index).countP (isGetFeature PID_POOL_REPORT_ID) = 0 := by
  refine ⟨?_, ?_, ?_, ?_, ?_, ?_⟩
  · simp [part000Trace, List.cons_append, List.findIdx_cons, isGetFeature,
      PID_POOL_REPORT_ID]
  · simp [part000Trace, List.cons_append, List.findIdx_cons, isGetFeature, isWriteWithId,
      deviceControlResetReport_eq, PID_POOL_REPORT_ID, PID_DEVICE_CONTROL_REPORT_ID]
  · simp [part000Trace, List.cons_append, List.findIdx_cons, isGetFeature, isWriteWithId,
      deviceControlResetReport_eq, deviceGainReport_eq, PID_POOL_REPORT_ID,
      PID_DEVICE_CONTROL_REPORT_ID, DEVICE_GAIN_REPORT_ID]
  · simp [mainTrace, List.cons_append, List.findIdx_cons, isWriteWithId,
      deviceControlResetReport_eq, PID_DEVICE_CONTROL_REPORT_ID]
  · simp [mainTrace, List.cons_append, List.findIdx_cons, isWriteWithId,
      deviceControlResetReport_eq, deviceGainReport_eq, PID_DEVICE_CONTROL_REPORT_ID,
      DEVICE_GAIN_REPORT_ID]
  · rw [mainTrace, List.countP_append, List.countP_append, shapingLoop_countP_getFeature]
    simp [List.countP_cons, isGetFeature, isWriteWithId, PID_POOL_REPORT_ID,
      PID_BLOCK_LOAD_REPORT_ID]

/-- C5 counterexample: after the shaping loop (trace positions 2008 and up)
`PID effects example/main.c` sends only DeviceControl(StopAllEffects) and no
SetConstantForce report at all, in particular no zero-magnitude one; shown at
the concrete index 1. -/
theorem main_no_zero_force_after_loop :
    (mainTrace 1).drop 2008 = [Xfer.write [0x0c, 0x04, 0x00]] ∧
    ((mainTrace 1).drop 2008).countP (isWriteWithId SET_CONSTANT_FORCE_REPORT_ID) = 0 := by
  have hmain : (mainTrace 1).drop 2008 = [Xfer.write deviceControlStopAllReport] := by
    rw [mainTrace]
    apply drop_append_cancel
    rw [List.length_append, shapingLoop_length]
    simp
  rw [hmain]
  refine ⟨by rw [deviceControlStopAllReport_eq], ?_⟩
  simp [List.countP_cons, isWriteWithId, deviceControlStopAllReport_eq,
    SET_CONSTANT_FORCE_REPORT_ID]

/-- C5 amended: after the shaping loop the unnamed source file sends 100
zero-magnitude SetConstantForce reports for the active handle before closing,
while `PID effects example/main.c` instead sends a single
DeviceControl(StopAllEffects) write and no SetConstantForce report after its
loop. -/
theorem final_zero_force_part000_only (index : Nat) :
    (part000Trace index).drop 2009 =
      List.replicate 100 (Xfer.write (setConstantForceReport index 0x00 0x00)) ∧
    decodeConstantForceMagnitude (setConstantForceReport index 0x00 0x00) = 0 ∧
    (mainTrace index).drop 2008 = [Xfer.write deviceControlStopAllReport] ∧
    ((mainTrace index).drop 2008).countP (isWriteWithId SET_CONSTANT_FORCE_REPORT_ID) = 0 := by
  have hmain : (mainTrace index).drop 2008 = [Xfer.write deviceControlStopAllReport] := by
    rw [mainTrace]
    apply drop_append_cancel
    rw [List.length_append, shapingLoop_length]
    simp
  have hpart : (part000Trace index).drop 2009 =
      List.replicate 100 (Xfer.write (setConstantForceReport index 0x00 0x00)) := by
    rw [part000Trace]
    apply drop_append_cancel
    rw [List.length_append, shapingLoop_length]
    simp
  refine ⟨hpart, by simp [decodeConstantForceMagnitude, setConstantForceReport_eq], hmain, ?_⟩
  rw [hmain]
  simp [List.countP_cons, isWriteWithId, deviceControlStopAllReport_eq,
    SET_CONSTANT_FORCE_REPORT_ID]

/-- C8: in both programs the type-specific reports (SetConstantForce, then
SetEnvelope) are transmitted strictly before the SetEffect report carrying the
common parameters, and exactly one SetEffect report is ever transmitted, so no
SetEffect precedes the type-specific reports of its configuration. -/
theorem type_specific_before_setEffect (index : Nat) :
    ((mainTrace index).findIdx (isWriteWithId SET_CONSTANT_FORCE_REPORT_ID) <
      (mainTrace index).findIdx (isWriteWithId SET_EFFECT_REPORT_ID)) ∧
    ((mainTrace index).findIdx (isWriteWithId SET_ENVELOPE_REPORT_ID) <
      (mainTrace index).findIdx (isWriteWithId SET_EFFECT_REPORT_ID)) ∧
    (mainTrace index).countP (isWriteWithId SET_EFFECT_REPORT_ID) = 1 ∧
    ((part000Trace index).findIdx (isWriteWithId SET_CONSTANT_FORCE_REPORT_ID) <
      (part000Trace index).findIdx (isWriteWithId SET_EFFECT_REPORT_ID)) ∧
    ((part000Trace index).findIdx (isWriteWithId SET_ENVELOPE_REPORT_ID) <
      (part000Trace index).findIdx (isWriteWithId SET_EFFECT_REPORT_ID)) ∧
    (part000Trace index).countP (isWriteWithId SET_EFFECT_REPORT_ID) = 1 := by
  refine ⟨?_, ?_, ?_, ?_, ?_, ?_⟩
  · simp [mainTrace, List.cons_append, List.findIdx_cons, isWriteWithId,
      deviceControlResetReport_eq, deviceGainReport_eq, setConstantForceReport_eq,
      setEnvelopeReport_eq, setEffectReport_eq, SET_CONSTANT_FORCE_REPORT_ID,
      SET_EFFECT_REPORT_ID]
  · simp [mainTrace, List.cons_append, List.findIdx_cons, isWriteWithId,
      deviceControlResetReport_eq, deviceGainReport_eq, setConstantForceReport_eq,
      setEnvelopeReport_eq, setEffectReport_eq, SET_ENVELOPE_REPORT_ID,
      SET_EFFECT_REPORT_ID]
  · rw [mainTrace, List.countP_append, List.countP_append,
      shapingLoop_countP index SET_EFFECT_REPORT_ID (by norm_num [SET_EFFECT_REPORT_ID])]
    simp [List.countP_cons, isWriteWithId, deviceControlResetReport_eq, deviceGainReport_eq,
      setConstantForceReport_eq, setEnvelopeReport_eq, setEffectReport_eq,
      effectOperationReport_eq, deviceControlStopAllReport_eq, SET_EFFECT_REPORT_ID]
  · simp [part000Trace, List.cons_append, List.findIdx_cons, isWriteWithId, isGetFeature,
      deviceControlResetReport_eq, deviceGainReport_eq, setConstantForceReport_eq,
      setEnvelopeReport_eq, setEffectReport_eq, SET_CONSTANT_FORCE_REPORT_ID,
      SET_EFFECT_REPORT_ID]
  · simp [part000Trace, List.cons_append, List.findIdx_cons, isWriteWithId, isGetFeature,
      deviceControlResetReport_eq, deviceGainReport_eq, setConstantForceReport_eq,
      setEnvelopeReport_eq, setEffectReport_eq, SET_ENVELOPE_REPORT_ID,
      SET_EFFECT_REPORT_ID]
  · rw [part000Trace, List.countP_append, List.countP_append,
      shapingLoop_countP index SET_EFFECT_REPORT_ID (by norm_num [SET_EFFECT_REPORT_ID]),
      countP_replicate]
    simp [List.countP_cons, isWriteWithId, isGetFeature, deviceControlResetReport_eq,
      deviceGainReport_eq, setConstantForceReport_eq, setEnvelopeReport_eq,
      setEffectReport_eq, effectOperationReport_eq, SET_EFFECT_REPORT_ID]

/-- The retry loop of `read_once` in the unnamed source file.  The oracle
`reads` gives the value the k-th `hid_read` call returns.  The first argument is
the number of calls already made (the variable `i` of the source), the second
the number of tries left out of the 10 the source allows; the result is the
total number of `hid_read` calls made and the final value of `res`.  The body
mirrors the C loop: call `hid_read`; a negative result breaks out immediately;
then `i` is incremented and once it reaches 10 the loop reports a timeout and
breaks; otherwise after the fixed 500 ms delay the loop continues exactly when
`res == 0`. -/
def read_once_go (reads : Nat → Int) : Nat → Nat → Nat × Int
| k, 0 => (k, 0)
| k, remaining + 1 =>
    let res := reads k
    if res < 0 then (k + 1, res)
    else if remaining = 0 then (k + 1, res)
    else if res = 0 then read_once_go reads (k + 1) remaining
    else (k + 1, res)

/-- The `read_once` helper of the unnamed source file: up to 10 `hid_read`
attempts separated by a fixed 500 ms delay.  A final `res` of 0 means the loop
exhausted its attempts and printed the timeout message. -/
def read_once (reads : Nat → Int) : Nat × Int :=
  read_once_go reads 0 10

theorem read_once_go_le (reads : Nat → Int) (remaining k : Nat) :
    (read_once_go reads k remaining).1 ≤ k + remaining := by
  induction remaining generalizing k with
  | zero => simp [read_once_go]
  | succ r ih =>
    rw [read_once_go]
    split
    · simp
    · split
      · simp
      · split
        · exact le_trans (ih (k + 1)) (by omega)
        · simp

theorem read_once_go_all_zero (reads : Nat → Int) (hz : ∀ k, reads k = 0)
    (r : Nat) : ∀ k, read_once_go reads k (r + 1) = (k + r + 1, 0) := by
  induction r with
  | zero =>
    intro k
    rw [read_once_go]
    simp [hz k]
  | succ r ih =>
    intro k
    rw [read_once_go]
    simp [hz k, ih (k + 1)]
    omega

/-- C9: the `read_once` retry loop makes at most 10 `hid_read` attempts for any
sequence of read results, and when the device never answers (every read returns
0) it stops after exactly 10 attempts with final result 0, the state in which
the source prints its timeout message instead of blocking indefinitely. -/
theorem read_once_bounded (reads : Nat → Int) :
    (read_once reads).1 ≤ 10 ∧
    ((∀ k, reads k = 0) → read_once reads = (10, 0)) := by
  constructor
  · simpa using read_once_go_le reads 10 0
  · intro hz
    have := read_once_go_all_zero reads hz 9 0
    simpa [read_once] using this

/-- C9 witness: the bound and the timeout outcome at the oracle that always
returns 0. -/
theorem read_once_bounded_witness :
    (read_once (fun _ => 0)).1 ≤ 10 ∧ read_once (fun _ => 0) = (10, 0) :=
  ⟨(read_once_bounded (fun _ => 0)).1, (read_once_bounded (fun _ => 0)).2 (fun _ => rfl)⟩

theorem applyWrites_untouched (ws : List (Nat × Nat)) (buf : Nat → Nat) (i : Nat)
    (h : ∀ w ∈ ws, w.1 ≠ i) :
    ws.foldl (fun b iv => writeByte b iv.1 iv.2) buf i = buf i := by
  induction ws generalizing buf with
  | nil => rfl
  | cons a t ih =>
    rw [List.foldl_cons, ih _ (fun w hw => h w (List.mem_cons_of_mem a hw))]
    have ha : a.1 ≠ i := h a (List.mem_cons_self a t)
    simp [writeByte, Ne.symm ha]

/-- C10: a transmitted report is the zeroed buffer overwritten at the written
offsets only, so every byte no assignment touches goes out as zero; in
particular the loop-count byte of the EFFECT_OPERATION_REPORT, the direction Y
bytes and the two type-specific block offsets of the SET_EFFECT_REPORT are zero,
and the 5 pad bits (bits 3-7) of its axes/direction flags byte are zero. -/
theorem unwritten_bytes_zero :
    (∀ (ws : List (Nat × Nat)) (len i : Nat), i < len →
      ws.countP (fun w => w.1 == i) = 0 → (transmit ws len).getD i 0 = 0) ∧
    (∀ index : Nat,
      (effectOperationReport index).getD 3 0 = 0 ∧
      (setEffectReport index).getD 16 0 = 0 ∧ (setEffectReport index).getD 17 0 = 0 ∧
      (setEffectReport index).getD 18 0 = 0 ∧ (setEffectReport index).getD 19 0 = 0 ∧
      (setEffectReport index).getD 20 0 = 0 ∧ (setEffectReport index).getD 21 0 = 0 ∧
      (setEffectReport index).getD 13 0 / 8 = 0) := by
  constructor
  · intro ws len i hi hcount
    have hmem : ∀ w ∈ ws, w.1 ≠ i := by
      intro w hw
      have := List.countP_eq_zero.mp hcount w hw
      simpa using this
    have hlen : (transmit ws len).length = len := by
      simp [transmit]
    rw [List.getD_eq_getElem?_getD, List.getElem?_eq_getElem (by omega : i < (transmit ws len).length)]
    simp only [transmit, List.getElem_map, List.getElem_range, Option.getD_some]
    exact applyWrites_untouched ws memsetZero i hmem
  · intro index
    refine ⟨?_, ?_, ?_, ?_, ?_, ?_, ?_, ?_⟩ <;>
      simp [effectOperationReport_eq, setEffectReport_eq]

/-- C10 witness: byte 1 of a report whose only assignment is at offset 0 is
transmitted as zero. -/
theorem unwritten_bytes_zero_witness :
    (transmit [(0, 0x0a)] 3).getD 1 0 = 0 :=
  unwritten_bytes_zero.1 [(0, 0x0a)] 3 1 (by norm_num) (by norm_num)

end PID
